import Mathlib

/-!
Verification of the BingeBox backend gateway core: the
`POST /api/datastrax/library` handler of `src/server/server.js` and the
embedding-averaging path described by the specification.

The handler is embedded shallowly: the JSON request body is a `JSValue`,
the vector store is a function parameter (so store failure and store
behaviour can be varied per theorem), and the handler returns both the
HTTP response and the list of queries it issued to the store.
-/

namespace BingeBox

/-- JSON-like values as produced by the express json body parser, together
with the JavaScript `undefined` value (the result of reading an absent
property). Numbers are modelled as integers; no claim depends on
fractional request-body numbers. -/
inductive JSValue where
  | undefined : JSValue
  | null : JSValue
  | bool : Bool → JSValue
  | num : Int → JSValue
  | str : String → JSValue
  | arr : List JSValue → JSValue
  | obj : List (String × JSValue) → JSValue

/-- Property access in the style of `req.body.expression`: `undefined` when
the field is absent or the body is not an object. -/
def JSValue.getField (v : JSValue) (k : String) : JSValue :=
  match v with
  | .obj fields =>
      match fields.lookup k with
      | some x => x
      | none => .undefined
  | _ => .undefined

/-- `typeof v === "string"` -/
def JSValue.isString : JSValue → Bool
  | .str _ => true
  | _ => false

/-- JavaScript truthiness as tested by `!query` in the handler. -/
def JSValue.truthy : JSValue → Bool
  | .undefined => false
  | .null => false
  | .bool b => b
  | .num n => n != 0
  | .str s => s != ""
  | .arr _ => true
  | .obj _ => true

/-- A stored record: an opaque JSON object, as a list of key/value pairs. -/
abbrev Record := List (String × JSValue)

/-- The argument object of `collection.find` in `server.js`: a filter, the
`vectorize` text, a `limit`, and a `projection` (field name mapped to 0 to
exclude it). -/
structure FindQuery where
  filter : List (String × JSValue)
  vectorize : String
  limit : Nat
  projection : List (String × Int)

/-- The query built by the `/api/datastrax/library` handler
(`server.js` lines 130-137): empty filter, `vectorize` set to the request
expression, `limit: 50`, `projection: \x7b $vector: 0 \x7d`. -/
def libraryQuery (expr : String) : FindQuery :=
  { filter := []
    vectorize := expr
    limit := 50
    projection := [("$vector", (0 : Int))] }

/-- An HTTP response: a status code and a JSON body. -/
structure HttpResponse where
  status : Nat
  body : JSValue

/-- The error body `res.json(\x7b error: msg \x7d)` used by the handler. -/
def errorBody (msg : String) : JSValue :=
  JSValue.obj [("error", JSValue.str msg)]

/-- The 400 response of the handler, `server.js` line 126. -/
def badRequest : HttpResponse :=
  { status := 400, body := errorBody "Query provided is not a string." }

/-- The vector store as seen by the handler: a call either yields records
or throws (modelled as `Except` with the thrown error's message). -/
abbrev Store := FindQuery → Except String (List Record)

/-- The `POST /api/datastrax/library` handler (`server.js` lines 122-143).

Reads `req.body.expression`; the guard `!query || typeof query !== "string"`
admits exactly the non-empty strings (a non-string fails the `typeof` test;
the empty string is falsy). On a valid expression it awaits
`collection.find` and sends the data as JSON; a thrown store error is
caught and becomes `res.status(500).json(\x7b error: error.message \x7d)`.

Returns the response together with the list of queries issued to the
store, in order, so that call behaviour (no call / exactly one call) is
part of the embedded semantics. -/
def postLibrary (store : Store) (body : JSValue) :
    HttpResponse × List FindQuery :=
  match body.getField "expression" with
  | JSValue.str s =>
      if s == "" then
        (badRequest, [])
      else
        match store (libraryQuery s) with
        | Except.ok records =>
            ({ status := 200, body := JSValue.arr (records.map JSValue.obj) },
             [libraryQuery s])
        | Except.error msg =>
            ({ status := 500, body := errorBody msg }, [libraryQuery s])
  | _ => (badRequest, [])

/-- Modelled from the spec: the DataStax vector store's `find` operation,
which is external library code, not part of `src/`. Per the spec's
contract for the Vector Query Executor, it returns up to `limit` records
from the collection, ranked by similarity, with every field projected out
with 0 stripped from each record. Ranking is the store's own business, so
the database is taken in its stored order here. -/
def astraFind (db : List Record) (q : FindQuery) : List Record :=
  ((db.map (fun r =>
      r.filter (fun kv => decide ((kv.fst, (0 : Int)) ∉ q.projection)))).take
    q.limit)

/-- A healthy store over database contents `db`: every `find` succeeds. -/
def astraStore (db : List Record) : Store :=
  fun q => Except.ok (astraFind db q)

/-! ## Embedding Generator (modelled from the spec)

The embedding endpoint and its averaging routine are described by the
spec but are not under `src/`; the definitions below follow the spec's
words. Vector components are rationals, the idealisation of the
floating-point arithmetic. -/

/-- An embedding vector. -/
abbrev Vec := List ℚ

/-- Element-wise addition of two vectors (equal length assumed by the
averaging spec). -/
def addVectors (a b : Vec) : Vec :=
  List.zipWith (fun x y => x + y) a b

/-- Element-wise sum of a non-empty batch. -/
def sumVectors : List Vec → Vec
  | [] => []
  | [v] => v
  | v :: w :: vs => addVectors v (sumVectors (w :: vs))

/-- Failure mode of the Embedding Generator on bad input. -/
inductive EmbedError where
  | invalidInput : EmbedError

/-- Modelled from the spec: the Embedding Generator's batch-combining
step (not under `src/`). An empty batch is `InvalidInput`; a single
vector is returned unchanged; several vectors are combined by summing
element-wise and dividing each component by the batch size. -/
def averageVectors : List Vec → Except EmbedError Vec
  | [] => Except.error EmbedError.invalidInput
  | [v] => Except.ok v
  | v :: w :: vs =>
      Except.ok
        ((sumVectors (v :: w :: vs)).map
          (fun x => x / ((v :: w :: vs).length : ℚ)))

/-- The element-wise arithmetic mean exactly as the spec words it: for
each dimension index j, avg[j] = (sum over i of vec[i][j]) / count. Used
as the specification side of the refinement theorems about
`averageVectors`. -/
def meanSpec (vs : List Vec) (n : Nat) : Vec :=
  (List.range n).map
    (fun j => (vs.map (fun u => u.getD j 0)).sum / (vs.length : ℚ))

/-- Responses of the embedding endpoint. -/
inductive EmbedResponse where
  | success (vector : Vec)
  | clientError (msg : String)
  | providerError (msg : String)

/-- HTTP status of an embedding-endpoint response. -/
def EmbedResponse.status : EmbedResponse → Nat
  | .success _ => 200
  | .clientError _ => 400
  | .providerError _ => 500

/-- Modelled from the spec: the `POST /api/embed` handler (not under
`src/`). It fails with 400 if `texts` is missing, not an array, or empty;
otherwise it makes one batched provider call, averages the returned
vectors, and answers 200 with the single vector, or 500 with the
provider's message on provider failure. -/
def postEmbed (provider : List JSValue → Except String (List Vec))
    (body : JSValue) : EmbedResponse :=
  match body.getField "texts" with
  | JSValue.arr texts =>
      if texts.isEmpty then
        EmbedResponse.clientError "Texts provided is not a non-empty array."
      else
        match provider texts with
        | Except.ok vectors =>
            match averageVectors vectors with
            | Except.ok avg => EmbedResponse.success avg
            | Except.error _ =>
                EmbedResponse.clientError
                  "Texts provided is not a non-empty array."
        | Except.error msg => EmbedResponse.providerError msg
  | _ => EmbedResponse.clientError "Texts provided is not a non-empty array."

/-! ## Helper lemmas about the averaging arithmetic -/

theorem addVectors_length (a b : Vec) (n : Nat) (ha : a.length = n)
    (hb : b.length = n) : (addVectors a b).length = n := by
  simp [addVectors, ha, hb]

theorem addVectors_getD (a b : Vec) (n j : Nat) (ha : a.length = n)
    (hb : b.length = n) (hj : j < n) :
    (addVectors a b).getD j 0 = a.getD j 0 + b.getD j 0 := by
  have hl : (addVectors a b).length = n := addVectors_length a b n ha hb
  rw [List.getD_eq_getElem _ _ (by omega), List.getD_eq_getElem _ _ (by omega),
    List.getD_eq_getElem _ _ (by omega)]
  simp [addVectors]

theorem sumVectors_length (vs : List Vec) (n : Nat) (hne : vs ≠ [])
    (hlen : ∀ u ∈ vs, u.length = n) : (sumVectors vs).length = n := by
  induction vs with
  | nil => exact absurd rfl hne
  | cons v rest ih =>
    cases rest with
    | nil => simpa [sumVectors] using hlen v (by simp)
    | cons w ws =>
      have h1 : v.length = n := hlen v (by simp)
      have h2 : (sumVectors (w :: ws)).length = n :=
        ih (by simp) (fun u hu => hlen u (by simp [hu]))
      simpa [sumVectors] using addVectors_length v (sumVectors (w :: ws)) n h1 h2

theorem sumVectors_getD (vs : List Vec) (n : Nat) (hne : vs ≠ [])
    (hlen : ∀ u ∈ vs, u.length = n) (j : Nat) (hj : j < n) :
    (sumVectors vs).getD j 0 = (vs.map (fun u => u.getD j 0)).sum := by
  induction vs with
  | nil => exact absurd rfl hne
  | cons v rest ih =>
    cases rest with
    | nil => simp [sumVectors]
    | cons w ws =>
      have h1 : v.length = n := hlen v (by simp)
      have hlen2 : ∀ u ∈ w :: ws, u.length = n := fun u hu => hlen u (by simp [hu])
      have h2 := ih (by simp) hlen2
      have hslen : (sumVectors (w :: ws)).length = n :=
        sumVectors_length (w :: ws) n (by simp) hlen2
      calc (sumVectors (v :: w :: ws)).getD j 0
          = v.getD j 0 + (sumVectors (w :: ws)).getD j 0 := by
            simpa [sumVectors] using
              addVectors_getD v (sumVectors (w :: ws)) n j h1 hslen hj
        _ = ((v :: w :: ws).map (fun u => u.getD j 0)).sum := by
            simp only [List.map_cons, List.sum_cons, h2]

theorem meanSpec_length (vs : List Vec) (n : Nat) : (meanSpec vs n).length = n := by
  simp [meanSpec]

/-- Refinement: on any non-empty batch of vectors of one common length,
the operational averaging routine computes exactly the element-wise mean
as the spec words it. -/
theorem averageVectors_eq_meanSpec (vs : List Vec) (n : Nat) (hne : vs ≠ [])
    (hlen : ∀ u ∈ vs, u.length = n) :
    averageVectors vs = Except.ok (meanSpec vs n) := by
  match vs with
  | [v] =>
    have hv : v.length = n := hlen v (by simp)
    have : meanSpec [v] n = v := by
      refine (List.ext_getElem (by simp [meanSpec, hv]) ?_).symm
      intro i h1 h2
      simp only [meanSpec, List.getElem_map, List.getElem_range]
      simp [List.getD_eq_getElem v 0 h1, List.getElem?_eq_getElem h1]
    rw [this]
    rfl
  | v :: w :: ws =>
    have hne2 : (v :: w :: ws) ≠ [] := by simp
    have hslen : (sumVectors (v :: w :: ws)).length = n :=
      sumVectors_length _ n hne2 hlen
    have : (sumVectors (v :: w :: ws)).map
        (fun x => x / (((v :: w :: ws).length : Nat) : ℚ)) =
        meanSpec (v :: w :: ws) n := by
      refine List.ext_getElem (by simp [meanSpec, hslen]) ?_
      intro i h1 h2
      have hi : i < n := by simpa [hslen] using h1
      simp only [meanSpec, List.getElem_map, List.getElem_range]
      rw [← List.getD_eq_getElem _ 0, sumVectors_getD _ n hne2 hlen i hi]
    calc averageVectors (v :: w :: ws)
        = Except.ok ((sumVectors (v :: w :: ws)).map
            (fun x => x / (((v :: w :: ws).length : Nat) : ℚ))) := rfl
      _ = Except.ok (meanSpec (v :: w :: ws) n) := by rw [this]

/-! ## Claims about the /api/datastrax/library handler -/

/-- C1: for every POST /api/datastrax/library request whose body's
expression field is missing or not a string, the handler answers HTTP 400
with the JSON error body and issues no call to the vector store. -/
theorem library_missing_or_nonstring_rejected (store : Store) (body : JSValue)
    (h : body.getField "expression" = JSValue.undefined ∨
      (body.getField "expression").isString = false) :
    postLibrary store body = (badRequest, []) := by
  unfold postLibrary
  cases hq : body.getField "expression" <;> try rfl
  case str s =>
    rw [hq] at h
    rcases h with h | h
    · exact JSValue.noConfusion h
    · simp [JSValue.isString] at h

/-- Witness for C1 at a request body without an expression field. -/
theorem library_missing_or_nonstring_rejected_witness :
    postLibrary (astraStore []) (JSValue.obj []) = (badRequest, []) :=
  library_missing_or_nonstring_rejected (astraStore []) (JSValue.obj [])
    (Or.inl rfl)

/-- C2: when the vector-store call throws, the handler catches it at the
request boundary and answers HTTP 500 with the provider's error message
in the JSON error body; exactly one store call was made (no retry), and
the handler still returns an ordinary response (not fatal). -/
theorem library_store_failure_maps_to_500 (store : Store) (body : JSValue)
    (s msg : String) (hq : body.getField "expression" = JSValue.str s)
    (hs : (s == "") = false)
    (hstore : store (libraryQuery s) = Except.error msg) :
    postLibrary store body =
      ({ status := 500, body := errorBody msg }, [libraryQuery s]) := by
  unfold postLibrary
  rw [hq]
  simp [hs, hstore]

/-- Witness for C2 at a failing store and the expression "matrix". -/
theorem library_store_failure_maps_to_500_witness :
    postLibrary (fun _ => Except.error "boom")
        (JSValue.obj [("expression", JSValue.str "matrix")]) =
      ({ status := 500, body := errorBody "boom" }, [libraryQuery "matrix"]) :=
  library_store_failure_maps_to_500 (fun _ => Except.error "boom")
    (JSValue.obj [("expression", JSValue.str "matrix")]) "matrix" "boom"
    rfl rfl rfl

/-- C9: the empty string expression is rejected with HTTP 400 and no
store call, because the guard in the source tests JavaScript truthiness
before the typeof test, and the empty string is falsy. -/
theorem library_empty_string_rejected (store : Store) (body : JSValue)
    (h : body.getField "expression" = JSValue.str "") :
    postLibrary store body = (badRequest, []) := by
  unfold postLibrary
  rw [h]
  rfl

/-- Witness for C9 at a request body whose expression is the empty string. -/
theorem library_empty_string_rejected_witness :
    postLibrary (astraStore [])
        (JSValue.obj [("expression", JSValue.str "")]) = (badRequest, []) :=
  library_empty_string_rejected (astraStore [])
    (JSValue.obj [("expression", JSValue.str "")]) rfl

/-- Every query the handler ever issues is `libraryQuery s` for the
expression string s of the request. -/
theorem mem_postLibrary_snd (store : Store) (body : JSValue) (q : FindQuery)
    (hq : q ∈ (postLibrary store body).snd) : ∃ s, q = libraryQuery s := by
  unfold postLibrary at hq
  split at hq
  · split at hq
    · exact absurd hq (List.not_mem_nil q)
    · split at hq
      · simp at hq
        exact ⟨_, hq⟩
      · simp at hq
        exact ⟨_, hq⟩
  · exact absurd hq (List.not_mem_nil q)

/-- C10: the store query is a function of the expression field alone:
two bodies with the same expression value lead to the same issued
queries, and every issued query has the fixed empty filter, limit 50 and
the vector-stripping projection. -/
theorem library_query_fixed_by_expression (store : Store) (b1 b2 : JSValue)
    (h : b1.getField "expression" = b2.getField "expression") :
    (postLibrary store b1).snd = (postLibrary store b2).snd ∧
      ∀ q ∈ (postLibrary store b1).snd,
        q.filter = [] ∧ q.limit = 50 ∧
          q.projection = [("$vector", (0 : Int))] := by
  constructor
  · unfold postLibrary
    rw [h]
  · intro q hq
    obtain ⟨s, rfl⟩ := mem_postLibrary_snd store b1 q hq
    exact ⟨rfl, rfl, rfl⟩

/-- Witness for C10 at two bodies sharing the expression "dune", one of
them carrying an extra field. -/
theorem library_query_fixed_by_expression_witness :
    (postLibrary (astraStore [])
        (JSValue.obj [("expression", JSValue.str "dune")])).snd =
      (postLibrary (astraStore [])
        (JSValue.obj [("extra", JSValue.num 7),
          ("expression", JSValue.str "dune")])).snd ∧
      ∀ q ∈ (postLibrary (astraStore [])
          (JSValue.obj [("expression", JSValue.str "dune")])).snd,
        q.filter = [] ∧ q.limit = 50 ∧
          q.projection = [("$vector", (0 : Int))] :=
  library_query_fixed_by_expression (astraStore [])
    (JSValue.obj [("expression", JSValue.str "dune")])
    (JSValue.obj [("extra", JSValue.num 7),
      ("expression", JSValue.str "dune")]) rfl

/-- C3: on a valid expression, the handler issues exactly the library
query, whose projection maps the vector field to 0; under the modelled
store semantics no record of the successful 200 response carries the
vector field. -/
theorem library_query_strips_vector_field (db : List Record) (body : JSValue)
    (s : String) (hq : body.getField "expression" = JSValue.str s)
    (hs : (s == "") = false) :
    postLibrary (astraStore db) body =
      ({ status := 200,
         body := JSValue.arr ((astraFind db (libraryQuery s)).map JSValue.obj) },
       [libraryQuery s]) ∧
      (libraryQuery s).projection = [("$vector", (0 : Int))] ∧
      ∀ r ∈ astraFind db (libraryQuery s), ∀ kv ∈ r, kv.fst ≠ "$vector" := by
  refine ⟨?_, rfl, ?_⟩
  · unfold postLibrary
    rw [hq]
    simp [hs, astraStore]
  · intro r hr kv hkv
    unfold astraFind at hr
    have hr' := List.mem_of_mem_take hr
    obtain ⟨r0, _, rfl⟩ := List.mem_map.mp hr'
    have hp := (List.mem_filter.mp hkv).2
    have hnotin := of_decide_eq_true hp
    intro heq
    exact hnotin (by rw [heq]; simp [libraryQuery])

/-- Witness for C3 at a one-record database whose record carries a
vector field, and the expression "space". -/
theorem library_query_strips_vector_field_witness :
    postLibrary
        (astraStore [[("title", JSValue.str "solaris"),
          ("$vector", JSValue.arr [JSValue.num 1])]])
        (JSValue.obj [("expression", JSValue.str "space")]) =
      ({ status := 200,
         body := JSValue.arr ((astraFind
           [[("title", JSValue.str "solaris"),
             ("$vector", JSValue.arr [JSValue.num 1])]]
           (libraryQuery "space")).map JSValue.obj) },
       [libraryQuery "space"]) ∧
      (libraryQuery "space").projection = [("$vector", (0 : Int))] ∧
      ∀ r ∈ astraFind
          [[("title", JSValue.str "solaris"),
            ("$vector", JSValue.arr [JSValue.num 1])]]
          (libraryQuery "space"),
        ∀ kv ∈ r, kv.fst ≠ "$vector" :=
  library_query_strips_vector_field
    [[("title", JSValue.str "solaris"), ("$vector", JSValue.arr [JSValue.num 1])]]
    (JSValue.obj [("expression", JSValue.str "space")]) "space" rfl rfl

/-- C4: the issued query carries the positive limit 50, and the number of
records the handler returns to the client never exceeds that limit. -/
theorem library_query_limit_bounds_results (db : List Record) (body : JSValue)
    (s : String) (hq : body.getField "expression" = JSValue.str s)
    (hs : (s == "") = false) :
    (libraryQuery s).limit = 50 ∧ 0 < (libraryQuery s).limit ∧
      (astraFind db (libraryQuery s)).length ≤ (libraryQuery s).limit ∧
      postLibrary (astraStore db) body =
        ({ status := 200,
           body := JSValue.arr ((astraFind db (libraryQuery s)).map JSValue.obj) },
         [libraryQuery s]) := by
  refine ⟨rfl, by norm_num [libraryQuery], ?_, ?_⟩
  · unfold astraFind
    exact List.length_take_le _ _
  · unfold postLibrary
    rw [hq]
    simp [hs, astraStore]

/-- Witness for C4 at a one-record database and the expression "space". -/
theorem library_query_limit_bounds_results_witness :
    (libraryQuery "space").limit = 50 ∧ 0 < (libraryQuery "space").limit ∧
      (astraFind [[("title", JSValue.str "solaris")]]
        (libraryQuery "space")).length ≤ (libraryQuery "space").limit ∧
      postLibrary (astraStore [[("title", JSValue.str "solaris")]])
          (JSValue.obj [("expression", JSValue.str "space")]) =
        ({ status := 200,
           body := JSValue.arr ((astraFind [[("title", JSValue.str "solaris")]]
             (libraryQuery "space")).map JSValue.obj) },
         [libraryQuery "space"]) :=
  library_query_limit_bounds_results [[("title", JSValue.str "solaris")]]
    (JSValue.obj [("expression", JSValue.str "space")]) "space" rfl rfl

/-! ## Claims about the Embedding Generator -/

/-- C5: for every batch of more than one vector of one common length, the
Embedding Generator returns the element-wise arithmetic mean — for each
dimension index j the sum over the batch at j divided by the batch size —
and in particular averaging [[1,2],[3,4]] yields [2,3]. -/
theorem averageVectors_multi_is_elementwise_mean (v w : Vec) (ws : List Vec)
    (n : Nat) (hlen : ∀ u ∈ v :: w :: ws, u.length = n) :
    averageVectors (v :: w :: ws) = Except.ok (meanSpec (v :: w :: ws) n) ∧
      averageVectors [[(1 : ℚ), 2], [3, 4]] = Except.ok [2, 3] :=
  ⟨averageVectors_eq_meanSpec (v :: w :: ws) n (by simp) hlen, by
    show Except.ok ((sumVectors [[(1 : ℚ), 2], [3, 4]]).map
      (fun x => x / ((2 : Nat) : ℚ))) = Except.ok [2, 3]
    norm_num [sumVectors, addVectors]⟩

/-- Witness for C5 at the batch [[1,2],[3,4]] of common length 2. -/
theorem averageVectors_multi_is_elementwise_mean_witness :
    averageVectors [[(1 : ℚ), 2], [3, 4]] =
        Except.ok (meanSpec [[(1 : ℚ), 2], [3, 4]] 2) ∧
      averageVectors [[(1 : ℚ), 2], [3, 4]] = Except.ok [2, 3] :=
  averageVectors_multi_is_elementwise_mean [1, 2] [3, 4] [] 2 (by simp)

/-- C6: a batch of exactly one vector is returned unchanged; the
single-vector branch performs no division at all. -/
theorem averageVectors_singleton_unchanged (v : Vec) :
    averageVectors [v] = Except.ok v := rfl

/-- C7: on non-empty batches of one common length, averaging is invariant
under reordering of the inputs, and the averaged vector has the common
input length. -/
theorem averageVectors_perm_invariant (l1 l2 : List Vec) (n : Nat)
    (hp : l1.Perm l2) (hne : l1 ≠ []) (hlen : ∀ u ∈ l1, u.length = n) :
    averageVectors l1 = averageVectors l2 ∧
      ∃ m, averageVectors l1 = Except.ok m ∧ m.length = n := by
  have hlen2 : ∀ u ∈ l2, u.length = n := fun u hu => hlen u (hp.mem_iff.mpr hu)
  have hne2 : l2 ≠ [] := by
    intro h
    exact hne (List.eq_nil_of_length_eq_zero (by rw [hp.length_eq, h]; rfl))
  have hfun : (fun j => ((l1.map (fun u => u.getD j 0)).sum / (l1.length : ℚ))) =
      (fun j => ((l2.map (fun u => u.getD j 0)).sum / (l2.length : ℚ))) := by
    funext j
    rw [(hp.map (fun u => u.getD j 0)).sum_eq, hp.length_eq]
  have hms : meanSpec l1 n = meanSpec l2 n := by
    unfold meanSpec
    rw [hfun]
  refine ⟨?_, meanSpec l1 n, averageVectors_eq_meanSpec l1 n hne hlen,
    meanSpec_length l1 n⟩
  rw [averageVectors_eq_meanSpec l1 n hne hlen,
    averageVectors_eq_meanSpec l2 n hne2 hlen2, hms]

/-- Witness for C7 at the batch [[1,2],[3,4]] and its reversal. -/
theorem averageVectors_perm_invariant_witness :
    averageVectors [[(1 : ℚ), 2], [3, 4]] =
        averageVectors [[(3 : ℚ), 4], [1, 2]] ∧
      ∃ m, averageVectors [[(1 : ℚ), 2], [3, 4]] = Except.ok m ∧
        m.length = 2 :=
  averageVectors_perm_invariant [[1, 2], [3, 4]] [[3, 4], [1, 2]] 2
    (List.Perm.swap _ _ _) (by simp) (by simp)

/-- C8: averaging an empty batch fails with InvalidInput rather than
producing a vector, and at the HTTP boundary POST /api/embed with an
empty texts array answers HTTP 400 with an error body. -/
theorem embed_empty_batch_rejected
    (provider : List JSValue → Except String (List Vec)) (body : JSValue)
    (h : body.getField "texts" = JSValue.arr []) :
    averageVectors [] = Except.error EmbedError.invalidInput ∧
      (postEmbed provider body).status = 400 ∧
      ∃ msg, postEmbed provider body = EmbedResponse.clientError msg := by
  have hpe : postEmbed provider body =
      EmbedResponse.clientError "Texts provided is not a non-empty array." := by
    unfold postEmbed
    rw [h]
    rfl
  exact ⟨rfl, by rw [hpe]; rfl, _, hpe⟩

/-- Witness for C8 at a body whose texts field is the empty array. -/
theorem embed_empty_batch_rejected_witness :
    averageVectors [] = Except.error EmbedError.invalidInput ∧
      (postEmbed (fun _ => Except.ok [])
        (JSValue.obj [("texts", JSValue.arr [])])).status = 400 ∧
      ∃ msg, postEmbed (fun _ => Except.ok [])
          (JSValue.obj [("texts", JSValue.arr [])]) =
        EmbedResponse.clientError msg :=
  embed_empty_batch_rejected (fun _ => Except.ok [])
    (JSValue.obj [("texts", JSValue.arr [])]) rfl

end BingeBox
